import Mathlib

/-!
Verification of the bluetoe GATT/ATT server (src/bluetoe/server.hpp) against its
natural-language specification.  The attribute database is a compile-time
template parameter in the source; here it is a value of type `Db` (a list of
services, each a list of attributes).  Attribute access (attribute.hpp),
the UUID filter (filter.hpp) and the per-service primary-service response
(service.hpp) are not part of src/; they are modelled from the spec where
needed and kept abstract otherwise.  Byte buffers are `List Nat` with values
understood to be octets; sizes are `Nat`.
-/

namespace BluetoeServer

/-- Result values of the polymorphic attribute access operation
(spec section 4.1, `details::attribute_access_result`). -/
inductive AccessResult where
  | success
  | read_truncated
  | invalid_offset
  | write_overflow
  | write_not_permitted
  | read_not_permitted
  | value_equal
  | value_not_equal
deriving DecidableEq

/-- An attribute of the database (`details::attribute`): a 16-bit UUID (or the
128-bit sentinel) and the access operation, split into its three request
variants.  `read n off` receives the size of the writable output region and the
offset and returns the access result together with the octets written
(`buffer_size` of the C++ code is the length of that list). -/
structure Attribute where
  uuid : Nat
  read : Nat → Nat → AccessResult × List Nat
  write : List Nat → AccessResult
  compare : List Nat → AccessResult

instance : Inhabited Attribute :=
  ⟨⟨0, fun _ _ => (.read_not_permitted, []), fun _ => .write_not_permitted,
    fun _ => .value_not_equal⟩⟩

/-- A service: its attributes (handles are assigned consecutively, the
primary-service declaration first) and the octets of its service UUID
(2 or 16 octets, little endian). -/
structure Service where
  attrs : List Attribute
  uuid_bytes : List Nat

/-- Number of attributes of a service (`Service::number_of_attributes`). -/
def Service.number_of_attributes (s : Service) : Nat := s.attrs.length

/-- Whether the service UUID is 128 bit wide (`Service::uuid::is_128bit`). -/
def Service.is_128bit (s : Service) : Bool := s.uuid_bytes.length == 16

/-- Modelled from the spec: `Service::characteristic_declaration_attribute()`
lives in service.hpp, which is not part of src/.  Per the spec the attribute a
Find By Type Value request compares against is the service's primary-service
declaration, the first attribute of the service, whose value is the service
UUID. -/
def Service.characteristic_declaration_attribute (s : Service) : Attribute :=
  s.attrs.headD default

/-- The server's database: the ordered list of its services. -/
abbrev Db := List Service

/-- The flat, handle-ordered list of all attributes of the database. -/
def allAttrs (db : Db) : List Attribute := (db.map Service.attrs).flatten

/-- `server::number_of_attributes`: handles run from 1 to this value. -/
def number_of_attributes (db : Db) : Nat := (allAttrs db).length

/-- `server::attribute_at`: the attribute at 0-based index `i`. -/
def attribute_at (db : Db) (i : Nat) : Attribute := (allAttrs db).getD i default

/-- Little-endian 16-bit read at octet index `i` (`details::read_16bit`). -/
def read_16bit (l : List Nat) (i : Nat) : Nat := l.getD i 0 + 256 * l.getD (i + 1) 0

/-- `details::read_handle`. -/
def read_handle (l : List Nat) (i : Nat) : Nat := read_16bit l i

/-- Little-endian 16-bit write (`details::write_16bit`). -/
def write_16bit (v : Nat) : List Nat := [v % 256, v / 256 % 256]

/-- `details::write_handle`. -/
def write_handle (v : Nat) : List Nat := write_16bit v

/- ATT opcodes (`details::att_opcodes`, spec section 6). -/

def op_error_response : Nat := 0x01
def op_exchange_mtu_request : Nat := 0x02
def op_exchange_mtu_response : Nat := 0x03
def op_find_information_request : Nat := 0x04
def op_find_information_response : Nat := 0x05
def op_find_by_type_value_request : Nat := 0x06
def op_find_by_type_value_response : Nat := 0x07
def op_read_by_type_request : Nat := 0x08
def op_read_by_type_response : Nat := 0x09
def op_read_request : Nat := 0x0A
def op_read_response : Nat := 0x0B
def op_read_blob_request : Nat := 0x0C
def op_read_blob_response : Nat := 0x0D
def op_read_by_group_type_request : Nat := 0x10
def op_read_by_group_type_response : Nat := 0x11
def op_write_request : Nat := 0x12
def op_write_response : Nat := 0x13

/- ATT error codes (`details::att_error_codes`, spec section 7). -/

def err_invalid_handle : Nat := 0x01
def err_read_not_permitted : Nat := 0x02
def err_write_not_permitted : Nat := 0x03
def err_invalid_pdu : Nat := 0x04
def err_request_not_supported : Nat := 0x06
def err_invalid_offset : Nat := 0x07
def err_attribute_not_found : Nat := 0x0A
def err_invalid_attribute_value_length : Nat := 0x0D
def err_unsupported_group_type : Nat := 0x10

/-- `details::default_att_mtu_size`. -/
def default_att_mtu_size : Nat := 23

/-- 16-bit UUID of a primary-service declaration (`gatt_uuids::primary_service`). -/
def primary_service_uuid : Nat := 0x2800

/-- 16-bit UUID of a characteristic declaration (`gatt_uuids::characteristic`). -/
def characteristic_uuid : Nat := 0x2803

/-- Modelled from the spec: `gatt_uuids::internal_128bit_uuid` (codes.hpp is not
part of src/) is the 16-bit sentinel marking an attribute whose real UUID is
128 bit and stored in the preceding characteristic declaration.  Its concrete
value never collides with a real 16-bit GATT UUID. -/
def internal_128bit_uuid : Nat := 0x0001

/-- Per connection data (`server::connection_data`). -/
structure connection_data where
  server_mtu : Nat
  client_mtu : Nat
deriving DecidableEq

/-- `connection_data::negotiated_mtu`. -/
def connection_data.negotiated_mtu (c : connection_data) : Nat :=
  min c.server_mtu c.client_mtu

/-- `connection_data::client_mtu( mtu )`, the setter. -/
def connection_data.set_client_mtu (c : connection_data) (mtu : Nat) : connection_data :=
  { c with client_mtu := mtu }

/-- `server::error_response`: writes the 5-octet Error Response
`0x01, req_opcode, handle_lo, handle_hi, error_code` when the output buffer can
hold it, otherwise sets the output size to 0.  Returns the written octets
together with the new output size. -/
def error_response (opcode : Nat) (error_code : Nat) (handle : Nat) (out_size : Nat) :
    List Nat × Nat :=
  if 5 ≤ out_size then
    ([op_error_response, opcode] ++ write_handle handle ++ [error_code], 5)
  else
    ([], 0)

/-- `server::check_size_and_handle_range< A, B >`: the PDU length must be `A` or
`B` (`invalid_pdu` otherwise); the starting handle must be nonzero and at most
the ending handle (`invalid_handle`), and at most the number of attributes
(`attribute_not_found`).  On success the two handles are returned. -/
def check_size_and_handle_range (db : Db) (A B : Nat) (input : List Nat) (out_size : Nat) :
    Except (List Nat × Nat) (Nat × Nat) :=
  if input.length ≠ A ∧ input.length ≠ B then
    .error (error_response (input.headD 0) err_invalid_pdu 0 out_size)
  else
    let s := read_handle input 1
    let e := read_handle input 3
    if s = 0 ∨ e < s then
      .error (error_response (input.headD 0) err_invalid_handle s out_size)
    else if number_of_attributes db < s then
      .error (error_response (input.headD 0) err_attribute_not_found s out_size)
    else
      .ok (s, e)

/-- `server::check_handle`: the handle at octets 1..2 must be nonzero
(`invalid_handle`) and at most the number of attributes (`attribute_not_found`). -/
def check_handle (db : Db) (input : List Nat) (out_size : Nat) :
    Except (List Nat × Nat) Nat :=
  let h := read_handle input 1
  if h = 0 then
    .error (error_response (input.headD 0) err_invalid_handle h out_size)
  else if number_of_attributes db < h then
    .error (error_response (input.headD 0) err_attribute_not_found h out_size)
  else
    .ok h

/-- `server::check_size_and_handle< A, B >`. -/
def check_size_and_handle (db : Db) (A B : Nat) (input : List Nat) (out_size : Nat) :
    Except (List Nat × Nat) Nat :=
  if input.length ≠ A ∧ input.length ≠ B then
    .error (error_response (input.headD 0) err_invalid_pdu 0 out_size)
  else
    check_handle db input out_size

/-- `server::handle_exchange_mtu_request`: length must be 3 and the requested
MTU at least 23, else `invalid_pdu`; otherwise the client MTU is stored and the
response is `0x03, server_mtu_lo, server_mtu_hi`. -/
def handle_exchange_mtu_request (input : List Nat) (out_size : Nat)
    (conn : connection_data) : (List Nat × Nat) × connection_data :=
  if input.length ≠ 3 then
    (error_response (input.headD 0) err_invalid_pdu 0 out_size, conn)
  else
    let mtu := read_16bit input 1
    if mtu < default_att_mtu_size then
      (error_response (input.headD 0) err_invalid_pdu 0 out_size, conn)
    else
      ((op_exchange_mtu_response :: write_16bit conn.server_mtu, 3),
        conn.set_client_mtu mtu)

/-- Pads or cuts a list of octets to exactly 16 octets; used for the
128-bit-UUID copy of `server::write_128bit_uuid`, whose source asserts that the
characteristic declaration reads exactly 19 octets. -/
def fix16 (l : List Nat) : List Nat := l.take 16 ++ List.replicate (16 - l.length) 0

/-- `server::write_128bit_uuid`: the 128-bit UUID of the attribute at 1-based
handle `h` is octets 3..18 of the read of the characteristic declaration
directly in front of it. -/
def read_128bit_uuid (db : Db) (h : Nat) : List Nat :=
  fix16 (((attribute_at db (h - 2)).read 19 0).2.drop 3)

/-- `server::collect_handle_uuid_tuples`: starting at handle `start` (first
argument after the fuel), walk up to the ending handle and the last attribute
while a whole tuple (4 octets for 16 bit, 18 for 128 bit) still fits into the
remaining `room`; append the tuple of every attribute whose UUID kind equals
`only16`.  The fuel is an upper bound on the number of iterations. -/
def collect_handle_uuid_tuples (db : Db) (endH : Nat) (only16 : Bool) :
    Nat → Nat → Nat → List Nat
  | 0, _, _ => []
  | gas + 1, start, room =>
    let tsize := if only16 then 4 else 18
    if start ≤ endH ∧ start ≤ number_of_attributes db ∧ tsize ≤ room then
      let a := attribute_at db (start - 1)
      let is16 : Bool := a.uuid != internal_128bit_uuid
      if only16 == is16 then
        (write_handle start ++
          (if is16 then write_16bit a.uuid else read_128bit_uuid db start)) ++
          collect_handle_uuid_tuples db endH only16 gas (start + 1) (room - tsize)
      else
        collect_handle_uuid_tuples db endH only16 gas (start + 1) room
    else
      []

/-- `server::handle_find_information_request`: after range validation the
response format (16 or 128 bit) is the UUID kind of the starting attribute;
the response is `0x05, format` followed by the collected handle-UUID tuples. -/
def handle_find_information_request (db : Db) (input : List Nat) (out_size : Nat) :
    List Nat × Nat :=
  match check_size_and_handle_range db 5 5 input out_size with
  | .error r => r
  | .ok (s, e) =>
    let only16 : Bool := (attribute_at db (s - 1)).uuid != internal_128bit_uuid
    if 2 ≤ out_size then
      let fmt : Nat := if only16 then 1 else 2
      let tuples := collect_handle_uuid_tuples db e only16 (e + 1) s (out_size - 2)
      ([op_find_information_response, fmt] ++ tuples, 2 + tuples.length)
    else
      ([op_find_information_response], 1)

/-- `details::value_filter`: an attribute passes when comparing its value
against the supplied octets yields `value_equal`. -/
def value_filter (value : List Nat) (attr : Attribute) : Bool :=
  attr.compare value = .value_equal

/-- One step of `details::services_by_group` combined with the
`details::collect_find_by_type_groups` iterator: the state is the running first
handle of the service, the octets collected so far and the `found` flag.  A
service whose declaration handle lies in the requested range and whose value
compares equal has its 4-octet handle pair appended when at least 4 octets
remain; the flag records whether any pair was appended. -/
def collect_find_by_type_groups_step (cap : Nat) (value : List Nat) (s e : Nat)
    (st : Nat × List Nat × Bool) (svc : Service) : Nat × List Nat × Bool :=
  let idx := st.1
  let next :=
    if s ≤ idx ∧ idx ≤ e ∧
        value_filter value svc.characteristic_declaration_attribute then
      if st.2.1.length + 4 ≤ cap then
        (st.2.1 ++ write_handle idx ++
          write_handle (idx + svc.number_of_attributes - 1), true)
      else
        st.2
    else
      st.2
  (idx + svc.number_of_attributes, next)

/-- `server::all_services_by_group` instantiated with the Find By Type Value
iterator: fold over the services, handles starting at 1.  Returns the final
index, the collected handle pairs and whether at least one pair was appended. -/
def collect_find_by_type_groups (cap : Nat) (value : List Nat) (s e : Nat)
    (db : Db) : Nat × List Nat × Bool :=
  db.foldl (collect_find_by_type_groups_step cap value s e) (1, [], false)

/-- `server::handle_find_by_type_value_request`: range validation with sizes 9
and 23, the requested type must be the 16-bit Primary Service UUID, then the
matching services' handle pairs are collected; if none matched the response is
an `attribute_not_found` Error Response. -/
def handle_find_by_type_value_request (db : Db) (input : List Nat) (out_size : Nat) :
    List Nat × Nat :=
  match check_size_and_handle_range db 9 23 input out_size with
  | .error r => r
  | .ok (s, e) =>
    if read_handle input 5 ≠ primary_service_uuid then
      error_response (input.headD 0) err_unsupported_group_type s out_size
    else
      let r := collect_find_by_type_groups (out_size - 1) (input.drop 7) s e db
      if r.2.2 then
        let sz := 1 + r.2.1.length % 256
        ((op_find_by_type_value_response :: r.2.1).take sz, sz)
      else
        error_response (input.headD 0) err_attribute_not_found s out_size

/-- `server::handle_read_request`: after size (3) and handle validation the
attribute is read at offset 0 into the output region behind the opcode; on
`success` or `read_truncated` the response is `0x0B` followed by the octets
read, otherwise a `read_not_permitted` Error Response. -/
def handle_read_request (db : Db) (input : List Nat) (out_size : Nat) :
    List Nat × Nat :=
  match check_size_and_handle db 3 3 input out_size with
  | .error r => r
  | .ok h =>
    let r := (attribute_at db (h - 1)).read (out_size - 1) 0
    if r.1 = .success ∨ r.1 = .read_truncated then
      (op_read_response :: r.2, 1 + r.2.length)
    else
      error_response (input.headD 0) err_read_not_permitted h out_size

/-- `server::handle_read_blob_request`: as `handle_read_request` but with size
5, the offset taken from octets 3..4, response opcode `0x0D`, and an
`invalid_offset` Error Response when the read reports `invalid_offset`. -/
def handle_read_blob_request (db : Db) (input : List Nat) (out_size : Nat) :
    List Nat × Nat :=
  match check_size_and_handle db 5 5 input out_size with
  | .error r => r
  | .ok h =>
    let offset := read_16bit input 3
    let r := (attribute_at db (h - 1)).read (out_size - 1) offset
    if r.1 = .success ∨ r.1 = .read_truncated then
      (op_read_blob_response :: r.2, 1 + r.2.length)
    else if r.1 = .invalid_offset then
      error_response (input.headD 0) err_invalid_offset h out_size
    else
      error_response (input.headD 0) err_read_not_permitted h out_size

/-- State of the `details::collect_attributes` iterator of Read By Type:
collected octets, the common tuple size `size_` and the `first_` flag. -/
structure collect_attributes_state where
  acc : List Nat
  size_ : Nat
  first_ : Bool
deriving DecidableEq

/-- One application of `details::collect_attributes::operator()`: when at least
the 2-octet header fits, the attribute is read into at most
`min remaining 255 - 2` octets; the result is admitted when it is `success`, or
`read_truncated` with exactly 253 octets (the C++ condition
`rc == success || rc == read_truncated && read.buffer_size == maximum_pdu_size`
groups this way).  The first admitted attribute fixes `size_` (stored into an
8-bit field); an admitted attribute is appended when its octet count plus the
header equals `size_`. -/
def collect_attributes_step (cap : Nat) (st : collect_attributes_state)
    (p : Nat × Attribute) : collect_attributes_state :=
  if st.acc.length + 2 ≤ cap then
    let max_data_size := min (cap - st.acc.length) 255 - 2
    let r := p.2.read max_data_size 0
    if r.1 = .success ∨ (r.1 = .read_truncated ∧ r.2.length = 253) then
      let size' := if st.first_ then (r.2.length + 2) % 256 else st.size_
      if r.2.length + 2 = size' then
        ⟨st.acc ++ write_handle p.1 ++ r.2, size', false⟩
      else
        ⟨st.acc, size', false⟩
    else
      st
  else
    st

/-- The handles enumerated by `server::all_attributes`: from the starting
handle to the smaller of the ending handle and the number of attributes. -/
def att_handles (db : Db) (s e : Nat) : List Nat :=
  List.range' s (min e (number_of_attributes db) + 1 - s)

/-- The (handle, attribute) pairs `server::all_attributes` passes to its
iterator: the in-range handles whose attribute passes the filter. -/
def attrs_in_range (db : Db) (s e : Nat) (filt : Nat → Attribute → Bool) :
    List (Nat × Attribute) :=
  ((att_handles db s e).map fun h => (h, attribute_at db (h - 1))).filter
    fun p => filt p.1 p.2

/-- `details::collect_attributes` run over a list of (handle, attribute) pairs. -/
def collect_attributes (cap : Nat) (l : List (Nat × Attribute)) :
    collect_attributes_state :=
  l.foldl (collect_attributes_step cap) ⟨[], 0, true⟩

/-- Modelled from the spec: `details::uuid_filter` lives in filter.hpp, which is
not part of src/.  An attribute matches a 16-bit type when its 16-bit UUID
equals the requested one; a 128-bit type matches the attributes carrying the
128-bit sentinel whose 128-bit UUID, recovered from the preceding
characteristic declaration, equals the requested 16 octets. -/
def uuid_filter (db : Db) (bytes : List Nat) (is128 : Bool) (h : Nat)
    (a : Attribute) : Bool :=
  if is128 then
    a.uuid == internal_128bit_uuid && read_128bit_uuid db h == bytes.take 16
  else
    a.uuid == read_16bit bytes 0

/-- `server::handle_read_by_type_request`: range validation with sizes 7 and
21, then the matching attributes are collected behind a 2-octet header; an
empty collection yields an `attribute_not_found` Error Response, otherwise the
response is `0x09`, the common tuple size, and the tuples. -/
def handle_read_by_type_request (db : Db) (input : List Nat) (out_size : Nat) :
    List Nat × Nat :=
  match check_size_and_handle_range db 7 21 input out_size with
  | .error r => r
  | .ok (s, e) =>
    let st := collect_attributes (out_size - 2)
      (attrs_in_range db s e (uuid_filter db (input.drop 5) (input.length == 21)))
    if st.acc = [] then
      error_response (input.headD 0) err_attribute_not_found s out_size
    else
      let sz := 2 + st.acc.length % 256
      ((op_read_by_type_response :: st.size_ % 256 :: st.acc).take sz, sz)

/-- State of `details::collect_primary_services`: running first handle of the
service, collected octets, `first_`, the response's UUID width and the length
byte `attribute_data_size_`. -/
structure collect_primary_services_state where
  index_ : Nat
  acc : List Nat
  first_ : Bool
  is_128bit_uuid_ : Bool
  attribute_data_size_ : Nat
deriving DecidableEq

/-- Modelled from the spec: `Service::read_primary_service_response` lives in
service.hpp, which is not part of src/.  Per the spec it appends the tuple
`handle, end_handle, service_uuid` when the service's UUID width equals the
width fixed for this response and the whole tuple still fits, and appends
nothing otherwise. -/
def read_primary_service_response (svc : Service) (idx : Nat) (is128 : Bool)
    (room : Nat) : List Nat :=
  let tsize : Nat := if is128 then 20 else 6
  if svc.is_128bit = is128 ∧ tsize ≤ room then
    write_handle idx ++ write_handle (idx + svc.number_of_attributes - 1) ++
      svc.uuid_bytes
  else
    []

/-- One step of `details::collect_primary_services::each`: a service whose
declaration handle lies in the range fixes the response width and length byte
when it is the first such service, and contributes its tuple via
`read_primary_service_response`. -/
def collect_primary_services_step (cap s e : Nat)
    (st : collect_primary_services_state) (svc : Service) :
    collect_primary_services_state :=
  if s ≤ st.index_ ∧ st.index_ ≤ e then
    let is128 := if st.first_ then svc.is_128bit else st.is_128bit_uuid_
    let dsize := if st.first_ then (if svc.is_128bit then 20 else 6)
      else st.attribute_data_size_
    let t := read_primary_service_response svc st.index_ is128 (cap - st.acc.length)
    ⟨st.index_ + svc.number_of_attributes, st.acc ++ t, false, is128, dsize⟩
  else
    { st with index_ := st.index_ + svc.number_of_attributes }

/-- `details::collect_primary_services` folded over the services, handles
starting at 1. -/
def collect_primary_services (cap s e : Nat) (db : Db) :
    collect_primary_services_state :=
  db.foldl (collect_primary_services_step cap s e) ⟨1, [], true, true, 0⟩

/-- `server::handle_read_by_group_type_request`: range validation with sizes 7
and 21; a 21-octet PDU or a type other than the 16-bit Primary Service UUID
yields `unsupported_group_type`; an empty collection yields
`attribute_not_found`; otherwise the response is `0x11`, the length byte, and
the collected tuples. -/
def handle_read_by_group_type_request (db : Db) (input : List Nat) (out_size : Nat) :
    List Nat × Nat :=
  match check_size_and_handle_range db 7 21 input out_size with
  | .error r => r
  | .ok (s, e) =>
    if input.length = 21 ∨ read_handle input 5 ≠ primary_service_uuid then
      error_response (input.headD 0) err_unsupported_group_type s out_size
    else
      let st := collect_primary_services (out_size - 2) s e db
      if st.acc = [] then
        error_response (input.headD 0) err_attribute_not_found s out_size
      else
        ([op_read_by_group_type_response, st.attribute_data_size_ % 256] ++ st.acc,
          2 + st.acc.length)

/-- `server::handle_write_request`: a PDU shorter than 3 octets yields
`invalid_pdu`; after handle validation the attribute's write is invoked on the
octets behind the handle; `success` yields the single octet `0x13`,
`write_overflow` an `invalid_attribute_value_length` Error Response, anything
else `write_not_permitted`. -/
def handle_write_request (db : Db) (input : List Nat) (out_size : Nat) :
    List Nat × Nat :=
  if input.length < 3 then
    error_response (input.headD 0) err_invalid_pdu 0 out_size
  else
    match check_handle db input out_size with
    | .error r => r
    | .ok h =>
      let rc := (attribute_at db (h - 1)).write (input.drop 3)
      if rc = .success then
        ([op_write_response], 1)
      else if rc = .write_overflow then
        error_response (input.headD 0) err_invalid_attribute_value_length h out_size
      else
        error_response (input.headD 0) err_write_not_permitted h out_size

/-- `server::l2cap_input`: the output size is first clipped to the negotiated
MTU, then the request is dispatched on the opcode; an unknown opcode yields a
`request_not_supported` Error Response. -/
def l2cap_input (db : Db) (input : List Nat) (out_size : Nat)
    (conn : connection_data) : (List Nat × Nat) × connection_data :=
  let os := min out_size conn.negotiated_mtu
  let op := input.headD 0
  if op = op_exchange_mtu_request then
    handle_exchange_mtu_request input os conn
  else if op = op_find_information_request then
    (handle_find_information_request db input os, conn)
  else if op = op_find_by_type_value_request then
    (handle_find_by_type_value_request db input os, conn)
  else if op = op_read_by_type_request then
    (handle_read_by_type_request db input os, conn)
  else if op = op_read_request then
    (handle_read_request db input os, conn)
  else if op = op_read_blob_request then
    (handle_read_blob_request db input os, conn)
  else if op = op_read_by_group_type_request then
    (handle_read_by_group_type_request db input os, conn)
  else if op = op_write_request then
    (handle_write_request db input os, conn)
  else
    (error_response op err_request_not_supported 0 os, conn)

/-- The attribute access contract of the spec (section 4.1): a read never
reports more octets than the caller-supplied buffer holds. -/
def ReadWF (a : Attribute) : Prop := ∀ n off, ((a.read n off).2).length ≤ n

/-- Well-formedness of a database: every attribute honours the read contract
and every service UUID is 2 or 16 octets wide. -/
def DbWF (db : Db) : Prop :=
  (∀ a ∈ allAttrs db, ReadWF a) ∧
    ∀ svc ∈ db, svc.uuid_bytes.length = 2 ∨ svc.uuid_bytes.length = 16

/-- A read-only attribute holding the fixed octets `val`: reads honour offset
and buffer bounds, writes are denied, compare is octet-for-octet equality.
Used as concrete witness material. -/
def mkFixedAttr (uuid : Nat) (val : List Nat) : Attribute where
  uuid := uuid
  read := fun n off =>
    if val.length < off then (.invalid_offset, [])
    else
      let v := val.drop off
      if v.length ≤ n then (.success, v) else (.read_truncated, v.take n)
  write := fun _ => .write_not_permitted
  compare := fun v => if v = val then .value_equal else .value_not_equal

/-- The concrete database of the spec's section 8 scenarios: one service,
UUID 0x180F, three attributes (primary-service declaration, characteristic
declaration of Battery Level, battery value 0x55) at handles 1..3. -/
def dbW : Db :=
  [⟨[mkFixedAttr 0x2800 [0x0F, 0x18],
     mkFixedAttr 0x2803 [0x12, 0x03, 0x00, 0x19, 0x2A],
     mkFixedAttr 0x2A19 [0x55]],
    [0x0F, 0x18]⟩]

lemma mkFixedAttr_ReadWF (u : Nat) (val : List Nat) : ReadWF (mkFixedAttr u val) := by
  intro n off
  simp only [mkFixedAttr]
  split
  · simp
  · split
    · next h => simpa using h
    · simp

lemma dbW_wf : DbWF dbW := by
  constructor
  · intro a ha
    simp only [dbW, allAttrs, List.map, List.flatten, List.append_nil,
      List.mem_cons, List.mem_singleton, List.not_mem_nil, or_false] at ha
    rcases ha with h | h | h <;> (subst h; exact mkFixedAttr_ReadWF _ _)
  · intro svc h
    simp only [dbW, List.mem_singleton] at h
    subst h
    left
    rfl

example : l2cap_input dbW [0x02, 0x17, 0x00] 23 ⟨23, 23⟩
    = (([0x03, 0x17, 0x00], 3), ⟨23, 23⟩) := by decide
example : l2cap_input dbW [0x0A, 0x03, 0x00] 23 ⟨23, 23⟩
    = (([0x0B, 0x55], 2), ⟨23, 23⟩) := by decide
example : l2cap_input dbW [0x0A, 0x00, 0x00] 23 ⟨23, 23⟩
    = (([0x01, 0x0A, 0x00, 0x00, 0x01], 5), ⟨23, 23⟩) := by decide
example : l2cap_input dbW [0x0A, 0x09, 0x00] 23 ⟨23, 23⟩
    = (([0x01, 0x0A, 0x09, 0x00, 0x0A], 5), ⟨23, 23⟩) := by decide
example : l2cap_input dbW [0x10, 0x01, 0x00, 0xFF, 0xFF, 0x00, 0x28] 23 ⟨23, 23⟩
    = (([0x11, 0x06, 0x01, 0x00, 0x03, 0x00, 0x0F, 0x18], 8), ⟨23, 23⟩) := by decide
example : l2cap_input dbW [0x10, 0x01, 0x00, 0xFF, 0xFF, 0x01, 0x29] 23 ⟨23, 23⟩
    = (([0x01, 0x10, 0x01, 0x00, 0x10], 5), ⟨23, 23⟩) := by decide
example : l2cap_input dbW [0x06, 0x01, 0x00, 0xFF, 0xFF, 0x00, 0x28, 0x0F, 0x18] 23 ⟨23, 23⟩
    = (([0x07, 0x01, 0x00, 0x03, 0x00], 5), ⟨23, 23⟩) := by decide
example : l2cap_input dbW [0x08, 0x01, 0x00, 0xFF, 0xFF, 0x19, 0x2A] 23 ⟨23, 23⟩
    = (([0x09, 0x03, 0x03, 0x00, 0x55], 5), ⟨23, 23⟩) := by decide
example : l2cap_input dbW [0x12, 0x03, 0x00, 0x77] 23 ⟨23, 23⟩
    = (([0x01, 0x12, 0x03, 0x00, 0x03], 5), ⟨23, 23⟩) := by decide
example : handle_find_information_request dbW [0x04, 0x01, 0x00, 0x03, 0x00] 23
    = ([0x05, 0x01, 0x01, 0x00, 0x00, 0x28, 0x02, 0x00, 0x03, 0x28,
        0x03, 0x00, 0x19, 0x2A], 14) := by decide

/-! Basic length and shape lemmas. -/

@[simp]
lemma write_16bit_length (v : Nat) : (write_16bit v).length = 2 := rfl

@[simp]
lemma write_handle_length (v : Nat) : (write_handle v).length = 2 := rfl

@[simp]
lemma fix16_length (l : List Nat) : (fix16 l).length = 16 := by
  simp only [fix16, List.length_append, List.length_take, List.length_replicate]
  omega

@[simp]
lemma read_128bit_uuid_length (db : Db) (h : Nat) :
    (read_128bit_uuid db h).length = 16 := fix16_length _

lemma error_response_eq (op c h os : Nat) (h5 : 5 ≤ os) :
    error_response op c h os
      = ([op_error_response, op] ++ write_handle h ++ [c], 5) := by
  simp [error_response, h5]

/-- Every field of a produced pair is bounded: the new output size is at most
the provided one, at least 1, and equals the number of octets produced. -/
def GoodOut (os : Nat) (r : List Nat × Nat) : Prop :=
  r.2 ≤ os ∧ 1 ≤ r.2 ∧ r.1.length = r.2

lemma error_response_good (op c h os : Nat) (h5 : 5 ≤ os) :
    GoodOut os (error_response op c h os) := by
  rw [error_response_eq op c h os h5]
  refine ⟨h5, by omega, ?_⟩
  simp [write_handle, write_16bit]

/-- Case analysis of `check_size_and_handle_range`: the error case carries a
good error response, the success case validated handles. -/
lemma check_size_and_handle_range_cases (db : Db) (A B : Nat) (input : List Nat)
    (os : Nat) (h5 : 5 ≤ os) :
    (∃ r, check_size_and_handle_range db A B input os = .error r ∧ GoodOut os r) ∨
    (∃ s e, check_size_and_handle_range db A B input os = .ok (s, e) ∧
      1 ≤ s ∧ s ≤ e ∧ s ≤ number_of_attributes db) := by
  unfold check_size_and_handle_range
  dsimp only
  split
  · exact .inl ⟨_, rfl, error_response_good _ _ _ _ h5⟩
  · split
    · exact .inl ⟨_, rfl, error_response_good _ _ _ _ h5⟩
    · split
      · exact .inl ⟨_, rfl, error_response_good _ _ _ _ h5⟩
      · next hio hnum =>
        refine .inr ⟨_, _, rfl, ?_, ?_, ?_⟩ <;> omega

/-- Case analysis of `check_handle`. -/
lemma check_handle_cases (db : Db) (input : List Nat) (os : Nat) (h5 : 5 ≤ os) :
    (∃ r, check_handle db input os = .error r ∧ GoodOut os r) ∨
    (∃ h, check_handle db input os = .ok h ∧
      1 ≤ h ∧ h ≤ number_of_attributes db) := by
  unfold check_handle
  dsimp only
  split
  · exact .inl ⟨_, rfl, error_response_good _ _ _ _ h5⟩
  · split
    · exact .inl ⟨_, rfl, error_response_good _ _ _ _ h5⟩
    · next h0 hnum => exact .inr ⟨_, rfl, by omega, by omega⟩

/-- Case analysis of `check_size_and_handle`. -/
lemma check_size_and_handle_cases (db : Db) (A B : Nat) (input : List Nat)
    (os : Nat) (h5 : 5 ≤ os) :
    (∃ r, check_size_and_handle db A B input os = .error r ∧ GoodOut os r) ∨
    (∃ h, check_size_and_handle db A B input os = .ok h ∧
      1 ≤ h ∧ h ≤ number_of_attributes db) := by
  unfold check_size_and_handle
  split
  · exact .inl ⟨_, rfl, error_response_good _ _ _ _ h5⟩
  · exact check_handle_cases db input os h5

/-- A validated handle indexes a real attribute of the database. -/
lemma attribute_at_mem (db : Db) (i : Nat) (hi : i < number_of_attributes db) :
    attribute_at db i ∈ allAttrs db := by
  unfold attribute_at
  rw [List.getD_eq_getElem _ _ hi]
  exact List.getElem_mem _

/-! Collector invariants. -/

lemma collect_handle_uuid_tuples_length_le (db : Db) (endH : Nat) (o16 : Bool) :
    ∀ gas start room,
      (collect_handle_uuid_tuples db endH o16 gas start room).length ≤ room := by
  intro gas
  induction gas with
  | zero => intro start room; simp [collect_handle_uuid_tuples]
  | succ g ih =>
    intro start room
    simp only [collect_handle_uuid_tuples]
    by_cases hc : start ≤ endH ∧ start ≤ number_of_attributes db ∧
        (if o16 = true then 4 else 18) ≤ room
    · rw [if_pos hc]
      by_cases hb : (o16 == ((attribute_at db (start - 1)).uuid
          != internal_128bit_uuid)) = true
      · rw [if_pos hb]
        have hrec := ih (start + 1) (room - (if o16 = true then 4 else 18))
        have hts := hc.2.2
        have ho : o16 = ((attribute_at db (start - 1)).uuid
            != internal_128bit_uuid) := by
          exact beq_iff_eq.mp hb
        have hlen : (write_handle start ++
            (if ((attribute_at db (start - 1)).uuid != internal_128bit_uuid) = true
              then write_16bit (attribute_at db (start - 1)).uuid
              else read_128bit_uuid db start)).length
            = (if o16 = true then 4 else 18) := by
          rw [← ho]
          cases o16 <;> simp
        rw [List.length_append, hlen]
        omega
      · rw [if_neg hb]
        exact ih (start + 1) room
    · rw [if_neg hc]
      simp

/-- The invariant of the Read By Type collector: the collected octets fit the
buffer, the stored common size is a byte, an untouched collector is empty, and
the octets decompose into handle-value tuples whose values all have
`size_ - 2` octets. -/
def CAInv (cap : Nat) (st : collect_attributes_state) : Prop :=
  st.acc.length ≤ cap ∧ st.size_ ≤ 255 ∧
  (st.first_ = true → st.acc = []) ∧
  ∃ tuples : List (Nat × List Nat),
    st.acc = (tuples.map fun p => write_handle p.1 ++ p.2).flatten ∧
    ∀ p ∈ tuples, p.2.length + 2 = st.size_

lemma collect_attributes_step_inv (cap : Nat) (st : collect_attributes_state)
    (p : Nat × Attribute) (hwf : ReadWF p.2) (h : CAInv cap st) :
    CAInv cap (collect_attributes_step cap st p) := by
  obtain ⟨hlen, hsz, hfst, tuples, hdec, htup⟩ := h
  have hmod : ∀ x : Nat, x % 256 ≤ 255 := fun x =>
    Nat.le_of_lt_succ (Nat.mod_lt _ (by omega))
  simp only [collect_attributes_step]
  by_cases hroom : st.acc.length + 2 ≤ cap
  · rw [if_pos hroom]
    have hread : ((p.2.read (min (cap - st.acc.length) 255 - 2) 0).2).length
        ≤ min (cap - st.acc.length) 255 - 2 := hwf _ _
    have hmin : min (cap - st.acc.length) 255 ≤ cap - st.acc.length :=
      Nat.min_le_left _ _
    by_cases hadm : (p.2.read (min (cap - st.acc.length) 255 - 2) 0).1
          = AccessResult.success ∨
        ((p.2.read (min (cap - st.acc.length) 255 - 2) 0).1
            = AccessResult.read_truncated ∧
          (p.2.read (min (cap - st.acc.length) 255 - 2) 0).2.length = 253)
    · rw [if_pos hadm]
      cases hf : st.first_ with
      | true =>
        have hacc : st.acc = [] := hfst hf
        simp only [hf, if_true]
        by_cases hinc : (p.2.read (min (cap - st.acc.length) 255 - 2) 0).2.length + 2
            = ((p.2.read (min (cap - st.acc.length) 255 - 2) 0).2.length + 2) % 256
        · rw [if_pos hinc]
          refine ⟨?_, hmod _,
            by intro hx; exact absurd hx (by simp),
            [(p.1, (p.2.read (min (cap - st.acc.length) 255 - 2) 0).2)], ?_, ?_⟩
          · simp only [List.length_append, write_handle_length]
            omega
          · simp [hacc]
          · intro q hq
            simp only [List.mem_singleton] at hq
            subst hq
            exact hinc
        · rw [if_neg hinc]
          exact ⟨hlen, hmod _, by intro hx; exact absurd hx (by simp),
            [], by simpa using hacc, by simp⟩
      | false =>
        simp only [hf, Bool.false_eq_true, if_false]
        by_cases hinc : (p.2.read (min (cap - st.acc.length) 255 - 2) 0).2.length + 2
            = st.size_
        · rw [if_pos hinc]
          refine ⟨?_, hsz, by intro hx; exact absurd hx (by simp),
            tuples ++ [(p.1, (p.2.read (min (cap - st.acc.length) 255 - 2) 0).2)],
            ?_, ?_⟩
          · simp only [List.length_append, write_handle_length]
            omega
          · simp [hdec]
          · intro q hq
            rcases List.mem_append.mp hq with hq | hq
            · exact htup q hq
            · simp only [List.mem_singleton] at hq
              subst hq
              exact hinc
        · rw [if_neg hinc]
          exact ⟨hlen, hsz, by intro hx; exact absurd hx (by simp),
            tuples, hdec, htup⟩
    · rw [if_neg hadm]
      exact ⟨hlen, hsz, hfst, tuples, hdec, htup⟩
  · rw [if_neg hroom]
    exact ⟨hlen, hsz, hfst, tuples, hdec, htup⟩

lemma collect_attributes_inv_aux (cap : Nat) (l : List (Nat × Attribute)) :
    ∀ st, (∀ p ∈ l, ReadWF p.2) → CAInv cap st →
      CAInv cap (l.foldl (collect_attributes_step cap) st) := by
  induction l with
  | nil => intro st _ h; exact h
  | cons p rest ih =>
    intro st hwf h
    exact ih _ (fun q hq => hwf q (List.mem_cons_of_mem _ hq))
      (collect_attributes_step_inv cap st p (hwf p (List.mem_cons_self _ _)) h)

lemma collect_attributes_inv (cap : Nat) (l : List (Nat × Attribute))
    (hwf : ∀ p ∈ l, ReadWF p.2) : CAInv cap (collect_attributes cap l) := by
  refine collect_attributes_inv_aux cap l _ hwf ?_
  exact ⟨by simp, by simp, fun _ => rfl, [], by simp, by simp⟩

/-- The invariant of the Find By Type Value collector: the collected octets
fit the buffer, come in whole 4-octet pairs, and the `found` flag is set as
soon as anything was collected. -/
def FBTVInv (cap : Nat) (st : Nat × List Nat × Bool) : Prop :=
  st.2.1.length ≤ cap ∧ st.2.1.length % 4 = 0 ∧ (st.2.1 ≠ [] → st.2.2 = true)

lemma collect_find_by_type_groups_step_inv (cap : Nat) (value : List Nat)
    (s e : Nat) (st : Nat × List Nat × Bool) (svc : Service)
    (h : FBTVInv cap st) :
    FBTVInv cap (collect_find_by_type_groups_step cap value s e st svc) := by
  obtain ⟨hlen, hmod, hfound⟩ := h
  simp only [collect_find_by_type_groups_step]
  by_cases hm : s ≤ st.1 ∧ st.1 ≤ e ∧
      value_filter value svc.characteristic_declaration_attribute = true
  · rw [if_pos hm]
    by_cases hr : st.2.1.length + 4 ≤ cap
    · rw [if_pos hr]
      refine ⟨?_, ?_, fun _ => rfl⟩
      · simp only [List.length_append, write_handle_length]
        omega
      · simp only [List.length_append, write_handle_length]
        omega
    · rw [if_neg hr]
      exact ⟨hlen, hmod, hfound⟩
  · rw [if_neg hm]
    exact ⟨hlen, hmod, hfound⟩

lemma collect_find_by_type_groups_inv_aux (cap : Nat) (value : List Nat)
    (s e : Nat) (svcs : List Service) :
    ∀ st, FBTVInv cap st →
      FBTVInv cap (svcs.foldl (collect_find_by_type_groups_step cap value s e) st) := by
  induction svcs with
  | nil => intro st h; exact h
  | cons svc rest ih =>
    intro st h
    exact ih _ (collect_find_by_type_groups_step_inv cap value s e st svc h)

lemma collect_find_by_type_groups_inv (cap : Nat) (value : List Nat)
    (s e : Nat) (db : Db) :
    FBTVInv cap (collect_find_by_type_groups cap value s e db) :=
  collect_find_by_type_groups_inv_aux cap value s e db _ ⟨by simp, by simp, by simp⟩

/-- The invariant of the Read By Group Type collector: the collected octets
fit the buffer (this needs every service UUID to be 2 or 16 octets wide). -/
def CPSInv (cap : Nat) (st : collect_primary_services_state) : Prop :=
  st.acc.length ≤ cap

lemma read_primary_service_response_length (svc : Service) (idx : Nat)
    (is128 : Bool) (room : Nat)
    (hsvc : svc.uuid_bytes.length = 2 ∨ svc.uuid_bytes.length = 16) :
    (read_primary_service_response svc idx is128 room).length ≤ room := by
  simp only [read_primary_service_response]
  by_cases hc : svc.is_128bit = is128 ∧ (if is128 = true then 20 else 6) ≤ room
  · rw [if_pos hc]
    obtain ⟨h1, h2⟩ := hc
    simp only [List.append_assoc, List.length_append, write_handle_length]
    cases is128 with
    | true =>
      have : svc.uuid_bytes.length = 16 := by
        have := h1
        simp only [Service.is_128bit, beq_iff_eq] at this
        exact this
      simp only [if_true] at h2
      omega
    | false =>
      have hne : svc.uuid_bytes.length ≠ 16 := by
        have := h1
        simp only [Service.is_128bit, beq_eq_false_iff_ne] at this
        simpa using this
      have h2' : 6 ≤ room := by simpa using h2
      rcases hsvc with h | h
      · omega
      · exact absurd h hne
  · rw [if_neg hc]
    simp

lemma collect_primary_services_step_inv (cap s e : Nat)
    (st : collect_primary_services_state) (svc : Service)
    (hsvc : svc.uuid_bytes.length = 2 ∨ svc.uuid_bytes.length = 16)
    (h : CPSInv cap st) :
    CPSInv cap (collect_primary_services_step cap s e st svc) := by
  simp only [collect_primary_services_step]
  by_cases hm : s ≤ st.index_ ∧ st.index_ ≤ e
  · rw [if_pos hm]
    have := read_primary_service_response_length svc st.index_
      (if st.first_ = true then svc.is_128bit else st.is_128bit_uuid_)
      (cap - st.acc.length) hsvc
    simp only [CPSInv, List.length_append]
    unfold CPSInv at h
    omega
  · rw [if_neg hm]
    exact h

lemma collect_primary_services_inv_aux (cap s e : Nat) (svcs : List Service) :
    ∀ st, (∀ svc ∈ svcs, svc.uuid_bytes.length = 2 ∨ svc.uuid_bytes.length = 16) →
      CPSInv cap st →
      CPSInv cap (svcs.foldl (collect_primary_services_step cap s e) st) := by
  induction svcs with
  | nil => intro st _ h; exact h
  | cons svc rest ih =>
    intro st hwf h
    exact ih _ (fun q hq => hwf q (List.mem_cons_of_mem _ hq))
      (collect_primary_services_step_inv cap s e st svc
        (hwf svc (List.mem_cons_self _ _)) h)

lemma collect_primary_services_inv (cap s e : Nat) (db : Db)
    (hwf : ∀ svc ∈ db, svc.uuid_bytes.length = 2 ∨ svc.uuid_bytes.length = 16) :
    CPSInv cap (collect_primary_services cap s e db) :=
  collect_primary_services_inv_aux cap s e db _ hwf (by simp [CPSInv])

/-- Whether no service's declaration handle lies in the range, when the first
service's declaration is at handle `idx` (the code's in-range test of
`details::collect_primary_services` and `details::services_by_group`). -/
def no_service_in_range (s e : Nat) : Nat → List Service → Bool
  | _, [] => true
  | idx, svc :: rest =>
    if s ≤ idx ∧ idx ≤ e then false
    else no_service_in_range s e (idx + svc.number_of_attributes) rest

/-- When no service declaration lies in the range, the Read By Group Type
collector collects nothing. -/
lemma collect_primary_services_empty_aux (cap s e : Nat) (svcs : List Service) :
    ∀ st, no_service_in_range s e st.index_ svcs = true →
      (svcs.foldl (collect_primary_services_step cap s e) st).acc = st.acc := by
  induction svcs with
  | nil => intro st _; rfl
  | cons svc rest ih =>
    intro st hno
    simp only [no_service_in_range] at hno
    by_cases hm : s ≤ st.index_ ∧ st.index_ ≤ e
    · rw [if_pos hm] at hno
      exact absurd hno (by simp)
    · rw [if_neg hm] at hno
      rw [List.foldl_cons]
      have hstep : collect_primary_services_step cap s e st svc
          = { st with index_ := st.index_ + svc.number_of_attributes } := by
        simp only [collect_primary_services_step]
        rw [if_neg hm]
      rw [hstep]
      exact ih _ hno

/-! Per-handler output-size bounds. -/

lemma attrs_in_range_wf (db : Db) (s e : Nat) (filt : Nat → Attribute → Bool)
    (hwf : ∀ a ∈ allAttrs db, ReadWF a) (hs : 1 ≤ s) :
    ∀ p ∈ attrs_in_range db s e filt, ReadWF p.2 := by
  intro p hp
  obtain ⟨hp, _⟩ := List.mem_filter.mp hp
  obtain ⟨h, hh, hph⟩ := List.mem_map.mp hp
  obtain ⟨h1, h2⟩ := List.mem_range'_1.mp hh
  subst hph
  have hle : h - 1 < number_of_attributes db := by omega
  exact hwf _ (attribute_at_mem db (h - 1) hle)

lemma handle_exchange_mtu_request_good (input : List Nat) (os : Nat)
    (conn : connection_data) (h23 : 23 ≤ os) :
    GoodOut os (handle_exchange_mtu_request input os conn).1 := by
  unfold handle_exchange_mtu_request
  split
  · exact error_response_good _ _ _ _ (by omega)
  · dsimp only
    split
    · exact error_response_good _ _ _ _ (by omega)
    · refine ⟨?_, ?_, ?_⟩
      · show (3 : Nat) ≤ os
        omega
      · show (1 : Nat) ≤ 3
        omega
      · show (op_exchange_mtu_response :: write_16bit conn.server_mtu).length = 3
        simp [write_16bit]

lemma handle_find_information_request_good (db : Db) (input : List Nat) (os : Nat)
    (h23 : 23 ≤ os) :
    GoodOut os (handle_find_information_request db input os) := by
  unfold handle_find_information_request
  rcases check_size_and_handle_range_cases db 5 5 input os (by omega) with
    ⟨r, hr, hgood⟩ | ⟨s, e, hr, hs, hse, hsN⟩
  · rw [hr]
    exact hgood
  · rw [hr]
    dsimp only
    rw [if_pos (by omega : 2 ≤ os)]
    have := collect_handle_uuid_tuples_length_le db e
      ((attribute_at db (s - 1)).uuid != internal_128bit_uuid) (e + 1) s (os - 2)
    refine ⟨by omega, by omega, ?_⟩
    simp only [List.length_append, List.length_cons, List.length_nil]

lemma handle_find_by_type_value_request_good (db : Db) (input : List Nat) (os : Nat)
    (h23 : 23 ≤ os) :
    GoodOut os (handle_find_by_type_value_request db input os) := by
  unfold handle_find_by_type_value_request
  rcases check_size_and_handle_range_cases db 9 23 input os (by omega) with
    ⟨r, hr, hgood⟩ | ⟨s, e, hr, hs, hse, hsN⟩
  · rw [hr]
    exact hgood
  · rw [hr]
    dsimp only
    split
    · exact error_response_good _ _ _ _ (by omega)
    · have hinv := collect_find_by_type_groups_inv (os - 1) (input.drop 7) s e db
      obtain ⟨hlen, _, _⟩ := hinv
      split
      · have hmle : (collect_find_by_type_groups (os - 1) (input.drop 7) s e db).2.1.length % 256
            ≤ (collect_find_by_type_groups (os - 1) (input.drop 7) s e db).2.1.length :=
          Nat.mod_le _ _
        refine ⟨by omega, by omega, ?_⟩
        simp only [List.length_take, List.length_cons]
        omega
      · exact error_response_good _ _ _ _ (by omega)

lemma handle_read_by_type_request_good (db : Db) (input : List Nat) (os : Nat)
    (hwf : ∀ a ∈ allAttrs db, ReadWF a) (h23 : 23 ≤ os) :
    GoodOut os (handle_read_by_type_request db input os) := by
  unfold handle_read_by_type_request
  rcases check_size_and_handle_range_cases db 7 21 input os (by omega) with
    ⟨r, hr, hgood⟩ | ⟨s, e, hr, hs, hse, hsN⟩
  · rw [hr]
    exact hgood
  · rw [hr]
    dsimp only
    split
    · exact error_response_good _ _ _ _ (by omega)
    · have hinv := collect_attributes_inv (os - 2)
        (attrs_in_range db s e (uuid_filter db (input.drop 5) (input.length == 21)))
        (attrs_in_range_wf db s e _ hwf hs)
      obtain ⟨hlen, _, _, _⟩ := hinv
      have hmle : (collect_attributes (os - 2)
          (attrs_in_range db s e (uuid_filter db (input.drop 5) (input.length == 21)))).acc.length % 256
          ≤ (collect_attributes (os - 2)
          (attrs_in_range db s e (uuid_filter db (input.drop 5) (input.length == 21)))).acc.length :=
        Nat.mod_le _ _
      refine ⟨by omega, by omega, ?_⟩
      simp only [List.length_take, List.length_cons]
      omega

lemma handle_read_request_good (db : Db) (input : List Nat) (os : Nat)
    (hwf : ∀ a ∈ allAttrs db, ReadWF a) (h23 : 23 ≤ os) :
    GoodOut os (handle_read_request db input os) := by
  unfold handle_read_request
  rcases check_size_and_handle_cases db 3 3 input os (by omega) with
    ⟨r, hr, hgood⟩ | ⟨h, hr, hh1, hhN⟩
  · rw [hr]
    exact hgood
  · rw [hr]
    dsimp only
    split
    · have hread : ((attribute_at db (h - 1)).read (os - 1) 0).2.length ≤ os - 1 :=
        hwf _ (attribute_at_mem db (h - 1) (by omega)) _ _
      refine ⟨by omega, by omega, ?_⟩
      simp only [List.length_cons]
      omega
    · exact error_response_good _ _ _ _ (by omega)

lemma handle_read_blob_request_good (db : Db) (input : List Nat) (os : Nat)
    (hwf : ∀ a ∈ allAttrs db, ReadWF a) (h23 : 23 ≤ os) :
    GoodOut os (handle_read_blob_request db input os) := by
  unfold handle_read_blob_request
  rcases check_size_and_handle_cases db 5 5 input os (by omega) with
    ⟨r, hr, hgood⟩ | ⟨h, hr, hh1, hhN⟩
  · rw [hr]
    exact hgood
  · rw [hr]
    dsimp only
    split
    · have hread : ((attribute_at db (h - 1)).read (os - 1) (read_16bit input 3)).2.length
          ≤ os - 1 :=
        hwf _ (attribute_at_mem db (h - 1) (by omega)) _ _
      refine ⟨by omega, by omega, ?_⟩
      simp only [List.length_cons]
      omega
    · split
      · exact error_response_good _ _ _ _ (by omega)
      · exact error_response_good _ _ _ _ (by omega)

lemma handle_read_by_group_type_request_good (db : Db) (input : List Nat) (os : Nat)
    (hwf : ∀ svc ∈ db, svc.uuid_bytes.length = 2 ∨ svc.uuid_bytes.length = 16)
    (h23 : 23 ≤ os) :
    GoodOut os (handle_read_by_group_type_request db input os) := by
  unfold handle_read_by_group_type_request
  rcases check_size_and_handle_range_cases db 7 21 input os (by omega) with
    ⟨r, hr, hgood⟩ | ⟨s, e, hr, hs, hse, hsN⟩
  · rw [hr]
    exact hgood
  · rw [hr]
    dsimp only
    split
    · exact error_response_good _ _ _ _ (by omega)
    · split
      · exact error_response_good _ _ _ _ (by omega)
      · have hinv := collect_primary_services_inv (os - 2) s e db hwf
        unfold CPSInv at hinv
        refine ⟨by omega, by omega, ?_⟩
        simp only [List.length_append, List.length_cons, List.length_nil]

lemma handle_write_request_good (db : Db) (input : List Nat) (os : Nat)
    (h23 : 23 ≤ os) :
    GoodOut os (handle_write_request db input os) := by
  unfold handle_write_request
  split
  · exact error_response_good _ _ _ _ (by omega)
  · rcases check_handle_cases db input os (by omega) with
      ⟨r, hr, hgood⟩ | ⟨h, hr, hh1, hhN⟩
    · rw [hr]
      exact hgood
    · rw [hr]
      dsimp only
      split
      · exact ⟨by omega, by omega, rfl⟩
      · split
        · exact error_response_good _ _ _ _ (by omega)
        · exact error_response_good _ _ _ _ (by omega)

/-! Claim theorems. -/

/-- C1: For every input PDU and every initial `out_size ≥ 23` (with a
connection whose server and client MTU are at least 23, as the source asserts,
and a well-formed database), `l2cap_input` returns with
`out_size ≤ min (initial out_size) (negotiated MTU)`, and the returned
`out_size` is at least 1 — hence either 0 or at least 1 — with exactly that
many response octets produced, so the response opcode is present. -/
theorem l2cap_input_out_size_bounded (db : Db) (input : List Nat) (out_size : Nat)
    (conn : connection_data) (hwf : DbWF db) (hin : input ≠ [])
    (hout : 23 ≤ out_size) (hsm : 23 ≤ conn.server_mtu) (hcm : 23 ≤ conn.client_mtu) :
    (l2cap_input db input out_size conn).1.2 ≤ min out_size conn.negotiated_mtu ∧
    1 ≤ (l2cap_input db input out_size conn).1.2 ∧
    (l2cap_input db input out_size conn).1.1.length
      = (l2cap_input db input out_size conn).1.2 := by
  have hneg : 23 ≤ conn.negotiated_mtu := le_min hsm hcm
  have h23 : 23 ≤ min out_size conn.negotiated_mtu := le_min hout hneg
  obtain ⟨hwa, hws⟩ := hwf
  show GoodOut (min out_size conn.negotiated_mtu) (l2cap_input db input out_size conn).1
  unfold l2cap_input
  dsimp only
  split
  · exact handle_exchange_mtu_request_good _ _ _ h23
  · split
    · exact handle_find_information_request_good _ _ _ h23
    · split
      · exact handle_find_by_type_value_request_good _ _ _ h23
      · split
        · exact handle_read_by_type_request_good _ _ _ hwa h23
        · split
          · exact handle_read_request_good _ _ _ hwa h23
          · split
            · exact handle_read_blob_request_good _ _ _ hwa h23
            · split
              · exact handle_read_by_group_type_request_good _ _ _ hws h23
              · split
                · exact handle_write_request_good _ _ _ h23
                · exact error_response_good _ _ _ _ (by omega)

/-- C1 witness: the bound instantiated on the concrete battery service and a
Read Request. -/
theorem l2cap_input_out_size_bounded_witness :
    DbWF dbW ∧
    (l2cap_input dbW [0x0A, 0x03, 0x00] 23 ⟨23, 23⟩).1.2
      ≤ min 23 (connection_data.negotiated_mtu ⟨23, 23⟩) :=
  ⟨dbW_wf,
    (l2cap_input_out_size_bounded dbW [0x0A, 0x03, 0x00] 23 ⟨23, 23⟩ dbW_wf
      (by decide) (by decide) (by decide) (by decide)).1⟩

/-- C4: For every range-taking request (Find Information, Find By Type Value,
Read By Type, Read By Group Type): a PDU whose length is neither of the two
allowed sizes yields `invalid_pdu`; a starting handle of 0 or greater than the
ending handle yields `invalid_handle` with the starting handle in the Error
Response's handle field; a starting handle greater than the number of
attributes yields `attribute_not_found`; otherwise validation succeeds and the
starting and ending handles are returned.  The last four conjuncts propagate
every validation error unchanged into the four handlers. -/
theorem check_size_and_handle_range_spec (db : Db) (A B : Nat) (input : List Nat)
    (os : Nat) (h5 : 5 ≤ os) :
    (input.length ≠ A → input.length ≠ B →
      check_size_and_handle_range db A B input os
        = .error ([op_error_response, input.headD 0] ++ write_handle 0
            ++ [err_invalid_pdu], 5)) ∧
    ((input.length = A ∨ input.length = B) →
      (read_handle input 1 = 0 ∨ read_handle input 3 < read_handle input 1) →
      check_size_and_handle_range db A B input os
        = .error ([op_error_response, input.headD 0]
            ++ write_handle (read_handle input 1) ++ [err_invalid_handle], 5)) ∧
    ((input.length = A ∨ input.length = B) →
      read_handle input 1 ≠ 0 → read_handle input 1 ≤ read_handle input 3 →
      number_of_attributes db < read_handle input 1 →
      check_size_and_handle_range db A B input os
        = .error ([op_error_response, input.headD 0]
            ++ write_handle (read_handle input 1) ++ [err_attribute_not_found], 5)) ∧
    ((input.length = A ∨ input.length = B) →
      read_handle input 1 ≠ 0 → read_handle input 1 ≤ read_handle input 3 →
      read_handle input 1 ≤ number_of_attributes db →
      check_size_and_handle_range db A B input os
        = .ok (read_handle input 1, read_handle input 3)) ∧
    (∀ r, check_size_and_handle_range db 5 5 input os = .error r →
      handle_find_information_request db input os = r) ∧
    (∀ r, check_size_and_handle_range db 9 23 input os = .error r →
      handle_find_by_type_value_request db input os = r) ∧
    (∀ r, check_size_and_handle_range db 7 21 input os = .error r →
      handle_read_by_type_request db input os = r) ∧
    (∀ r, check_size_and_handle_range db 7 21 input os = .error r →
      handle_read_by_group_type_request db input os = r) := by
  refine ⟨?_, ?_, ?_, ?_, ?_, ?_, ?_, ?_⟩
  · intro h1 h2
    unfold check_size_and_handle_range
    rw [if_pos ⟨h1, h2⟩, error_response_eq _ _ _ _ h5]
  · intro hAB hbad
    unfold check_size_and_handle_range
    rw [if_neg (by rcases hAB with h | h <;> simp [h]) ]
    dsimp only
    rw [if_pos hbad, error_response_eq _ _ _ _ h5]
  · intro hAB h0 hse hN
    unfold check_size_and_handle_range
    rw [if_neg (by rcases hAB with h | h <;> simp [h])]
    dsimp only
    rw [if_neg (by push_neg; omega), if_pos hN, error_response_eq _ _ _ _ h5]
  · intro hAB h0 hse hN
    unfold check_size_and_handle_range
    rw [if_neg (by rcases hAB with h | h <;> simp [h])]
    dsimp only
    rw [if_neg (by push_neg; omega), if_neg (by omega)]
  · intro r hr
    unfold handle_find_information_request
    rw [hr]
  · intro r hr
    unfold handle_find_by_type_value_request
    rw [hr]
  · intro r hr
    unfold handle_read_by_type_request
    rw [hr]
  · intro r hr
    unfold handle_read_by_group_type_request
    rw [hr]

/-- C4 witness: a Find Information Request with starting handle 0 is answered
with an `invalid_handle` Error Response carrying handle 0. -/
theorem check_size_and_handle_range_spec_witness :
    5 ≤ (23 : Nat) ∧
    handle_find_information_request dbW [0x04, 0x00, 0x00, 0x05, 0x00] 23
      = ([op_error_response, 0x04] ++ write_handle 0 ++ [err_invalid_handle], 5) := by
  have h := check_size_and_handle_range_spec dbW 5 5 [0x04, 0x00, 0x00, 0x05, 0x00]
    23 (by decide)
  refine ⟨by decide, ?_⟩
  have herr := h.2.1 (Or.inl (by decide)) (Or.inl (by decide))
  exact h.2.2.2.2.1 _ herr

/-- C7: For every Exchange MTU Request: a PDU whose length is not 3 yields
`invalid_pdu`; a requested MTU below 23 yields `invalid_pdu`; otherwise the
requested MTU is stored as the client MTU and the response is the 3-octet PDU
`0x03, server_mtu_lo, server_mtu_hi`, after which the negotiated MTU equals
`min server_mtu client_mtu`. -/
theorem handle_exchange_mtu_request_spec (input : List Nat) (os : Nat)
    (conn : connection_data) (h5 : 5 ≤ os) :
    (input.length ≠ 3 →
      handle_exchange_mtu_request input os conn
        = (([op_error_response, input.headD 0] ++ write_handle 0
            ++ [err_invalid_pdu], 5), conn)) ∧
    (input.length = 3 → read_16bit input 1 < 23 →
      handle_exchange_mtu_request input os conn
        = (([op_error_response, input.headD 0] ++ write_handle 0
            ++ [err_invalid_pdu], 5), conn)) ∧
    (input.length = 3 → 23 ≤ read_16bit input 1 →
      handle_exchange_mtu_request input os conn
        = ((op_exchange_mtu_response :: write_16bit conn.server_mtu, 3),
            { conn with client_mtu := read_16bit input 1 }) ∧
      connection_data.negotiated_mtu { conn with client_mtu := read_16bit input 1 }
        = min conn.server_mtu (read_16bit input 1)) := by
  refine ⟨?_, ?_, ?_⟩
  · intro hlen
    unfold handle_exchange_mtu_request
    rw [if_pos hlen, error_response_eq _ _ _ _ h5]
  · intro hlen hmtu
    unfold handle_exchange_mtu_request
    rw [if_neg (by simp [hlen])]
    dsimp only
    rw [if_pos (show read_16bit input 1 < default_att_mtu_size by
          simpa [default_att_mtu_size] using hmtu),
        error_response_eq _ _ _ _ h5]
  · intro hlen hmtu
    unfold handle_exchange_mtu_request
    rw [if_neg (by simp [hlen])]
    dsimp only
    rw [if_neg (show ¬ read_16bit input 1 < default_att_mtu_size by
          simp only [default_att_mtu_size]; omega)]
    exact ⟨rfl, rfl⟩

/-- C7 witness: the spec's Exchange MTU scenario. -/
theorem handle_exchange_mtu_request_spec_witness :
    23 ≤ read_16bit [0x02, 0x17, 0x00] 1 ∧
    handle_exchange_mtu_request [0x02, 0x17, 0x00] 23 ⟨23, 23⟩
      = (([0x03, 0x17, 0x00], 3), ⟨23, 23⟩) := by
  have h := handle_exchange_mtu_request_spec [0x02, 0x17, 0x00] 23 ⟨23, 23⟩ (by decide)
  exact ⟨by decide, (h.2.2 (by decide) (by decide)).1⟩

/-- C6: For every Write Request: a PDU shorter than 3 octets yields
`invalid_pdu`; after handle validation the attribute's write is invoked on the
octets behind the handle (`input[3..in_size)`); `success` produces the single
octet `0x13`, `write_overflow` an `invalid_attribute_value_length` Error
Response, and any other result a `write_not_permitted` Error Response. -/
theorem handle_write_request_spec (db : Db) (input : List Nat) (os : Nat)
    (h5 : 5 ≤ os) :
    (input.length < 3 →
      handle_write_request db input os
        = ([op_error_response, input.headD 0] ++ write_handle 0
            ++ [err_invalid_pdu], 5)) ∧
    (3 ≤ input.length → read_handle input 1 = 0 →
      handle_write_request db input os
        = ([op_error_response, input.headD 0] ++ write_handle 0
            ++ [err_invalid_handle], 5)) ∧
    (3 ≤ input.length → read_handle input 1 ≠ 0 →
      number_of_attributes db < read_handle input 1 →
      handle_write_request db input os
        = ([op_error_response, input.headD 0] ++ write_handle (read_handle input 1)
            ++ [err_attribute_not_found], 5)) ∧
    (3 ≤ input.length → read_handle input 1 ≠ 0 →
      read_handle input 1 ≤ number_of_attributes db →
      ((attribute_at db (read_handle input 1 - 1)).write (input.drop 3)
          = .success →
        handle_write_request db input os = ([op_write_response], 1)) ∧
      ((attribute_at db (read_handle input 1 - 1)).write (input.drop 3)
          = .write_overflow →
        handle_write_request db input os
          = ([op_error_response, input.headD 0] ++ write_handle (read_handle input 1)
              ++ [err_invalid_attribute_value_length], 5)) ∧
      ((attribute_at db (read_handle input 1 - 1)).write (input.drop 3)
          ≠ .success →
        (attribute_at db (read_handle input 1 - 1)).write (input.drop 3)
          ≠ .write_overflow →
        handle_write_request db input os
          = ([op_error_response, input.headD 0] ++ write_handle (read_handle input 1)
              ++ [err_write_not_permitted], 5))) := by
  refine ⟨?_, ?_, ?_, ?_⟩
  · intro hlen
    unfold handle_write_request
    rw [if_pos hlen, error_response_eq _ _ _ _ h5]
  · intro hlen h0
    unfold handle_write_request
    rw [if_neg (by omega)]
    unfold check_handle
    dsimp only
    rw [if_pos h0, error_response_eq _ _ _ _ h5, h0]
  · intro hlen h0 hN
    unfold handle_write_request
    rw [if_neg (by omega)]
    unfold check_handle
    dsimp only
    rw [if_neg h0, if_pos hN, error_response_eq _ _ _ _ h5]
  · intro hlen h0 hN
    have hok : check_handle db input os = .ok (read_handle input 1) := by
      unfold check_handle
      dsimp only
      rw [if_neg h0, if_neg (by omega)]
    refine ⟨?_, ?_, ?_⟩
    · intro hrc
      unfold handle_write_request
      rw [if_neg (by omega), hok]
      dsimp only
      rw [if_pos hrc]
    · intro hrc
      unfold handle_write_request
      rw [if_neg (by omega), hok]
      dsimp only
      rw [if_neg (by simp [hrc]), if_pos hrc, error_response_eq _ _ _ _ h5]
    · intro hrc1 hrc2
      unfold handle_write_request
      rw [if_neg (by omega), hok]
      dsimp only
      rw [if_neg hrc1, if_neg hrc2, error_response_eq _ _ _ _ h5]

/-- C6 witness: the spec's write-to-read-only scenario. -/
theorem handle_write_request_spec_witness :
    5 ≤ (23 : Nat) ∧
    handle_write_request dbW [0x12, 0x03, 0x00, 0x77] 23
      = ([op_error_response, 0x12] ++ write_handle 3 ++ [err_write_not_permitted], 5) := by
  have h := handle_write_request_spec dbW [0x12, 0x03, 0x00, 0x77] 23 (by decide)
  exact ⟨by decide,
    (h.2.2.2 (by decide) (by decide) (by decide)).2.2 (by decide) (by decide)⟩

/-- C5: For every Read Request (length 3) and Read Blob Request (length 5):
handle 0 yields `invalid_handle`, a handle above the number of attributes
yields `attribute_not_found`; the attribute is read into the output region
behind the opcode (of `out_size - 1` octets) at the given offset (0 for Read);
on `success` or `read_truncated` the response opcode is `0x0B` / `0x0D` and the
new output size is `1 + bytes_written`; a Read Blob read reporting
`invalid_offset` yields an `invalid_offset` Error Response; any other denial
yields `read_not_permitted`. -/
theorem read_and_read_blob_spec (db : Db) (input : List Nat) (os : Nat)
    (h5 : 5 ≤ os) :
    (input.length = 3 → read_handle input 1 = 0 →
      handle_read_request db input os
        = ([op_error_response, input.headD 0] ++ write_handle 0
            ++ [err_invalid_handle], 5)) ∧
    (input.length = 3 → read_handle input 1 ≠ 0 →
      number_of_attributes db < read_handle input 1 →
      handle_read_request db input os
        = ([op_error_response, input.headD 0] ++ write_handle (read_handle input 1)
            ++ [err_attribute_not_found], 5)) ∧
    (input.length = 3 → read_handle input 1 ≠ 0 →
      read_handle input 1 ≤ number_of_attributes db →
      ∀ rc bs, (attribute_at db (read_handle input 1 - 1)).read (os - 1) 0 = (rc, bs) →
        ((rc = .success ∨ rc = .read_truncated) →
          handle_read_request db input os = (op_read_response :: bs, 1 + bs.length)) ∧
        (rc ≠ .success → rc ≠ .read_truncated →
          handle_read_request db input os
            = ([op_error_response, input.headD 0]
                ++ write_handle (read_handle input 1) ++ [err_read_not_permitted], 5))) ∧
    (input.length = 5 → read_handle input 1 = 0 →
      handle_read_blob_request db input os
        = ([op_error_response, input.headD 0] ++ write_handle 0
            ++ [err_invalid_handle], 5)) ∧
    (input.length = 5 → read_handle input 1 ≠ 0 →
      number_of_attributes db < read_handle input 1 →
      handle_read_blob_request db input os
        = ([op_error_response, input.headD 0] ++ write_handle (read_handle input 1)
            ++ [err_attribute_not_found], 5)) ∧
    (input.length = 5 → read_handle input 1 ≠ 0 →
      read_handle input 1 ≤ number_of_attributes db →
      ∀ rc bs, (attribute_at db (read_handle input 1 - 1)).read (os - 1)
          (read_16bit input 3) = (rc, bs) →
        ((rc = .success ∨ rc = .read_truncated) →
          handle_read_blob_request db input os
            = (op_read_blob_response :: bs, 1 + bs.length)) ∧
        (rc = .invalid_offset →
          handle_read_blob_request db input os
            = ([op_error_response, input.headD 0]
                ++ write_handle (read_handle input 1) ++ [err_invalid_offset], 5)) ∧
        (rc ≠ .success → rc ≠ .read_truncated → rc ≠ .invalid_offset →
          handle_read_blob_request db input os
            = ([op_error_response, input.headD 0]
                ++ write_handle (read_handle input 1) ++ [err_read_not_permitted], 5))) := by
  refine ⟨?_, ?_, ?_, ?_, ?_, ?_⟩
  · intro hlen h0
    unfold handle_read_request check_size_and_handle check_handle
    rw [if_neg (by simp [hlen])]
    dsimp only
    rw [if_pos h0, error_response_eq _ _ _ _ h5, h0]
  · intro hlen h0 hN
    unfold handle_read_request check_size_and_handle check_handle
    rw [if_neg (by simp [hlen])]
    dsimp only
    rw [if_neg h0, if_pos hN, error_response_eq _ _ _ _ h5]
  · intro hlen h0 hN rc bs hread
    have hok : check_size_and_handle db 3 3 input os = .ok (read_handle input 1) := by
      unfold check_size_and_handle check_handle
      rw [if_neg (by simp [hlen])]
      dsimp only
      rw [if_neg h0, if_neg (by omega)]
    refine ⟨?_, ?_⟩
    · intro hrc
      unfold handle_read_request
      rw [hok]
      dsimp only
      rw [hread]
      dsimp only
      rw [if_pos hrc]
    · intro hrc1 hrc2
      unfold handle_read_request
      rw [hok]
      dsimp only
      rw [hread]
      dsimp only
      rw [if_neg (by simp [hrc1, hrc2]), error_response_eq _ _ _ _ h5]
  · intro hlen h0
    unfold handle_read_blob_request check_size_and_handle check_handle
    rw [if_neg (by simp [hlen])]
    dsimp only
    rw [if_pos h0, error_response_eq _ _ _ _ h5, h0]
  · intro hlen h0 hN
    unfold handle_read_blob_request check_size_and_handle check_handle
    rw [if_neg (by simp [hlen])]
    dsimp only
    rw [if_neg h0, if_pos hN, error_response_eq _ _ _ _ h5]
  · intro hlen h0 hN rc bs hread
    have hok : check_size_and_handle db 5 5 input os = .ok (read_handle input 1) := by
      unfold check_size_and_handle check_handle
      rw [if_neg (by simp [hlen])]
      dsimp only
      rw [if_neg h0, if_neg (by omega)]
    refine ⟨?_, ?_, ?_⟩
    · intro hrc
      unfold handle_read_blob_request
      rw [hok]
      dsimp only
      rw [hread]
      dsimp only
      rw [if_pos hrc]
    · intro hrc
      unfold handle_read_blob_request
      rw [hok]
      dsimp only
      rw [hread]
      dsimp only
      rw [if_neg (by simp [hrc]), if_pos hrc, error_response_eq _ _ _ _ h5]
    · intro hrc1 hrc2 hrc3
      unfold handle_read_blob_request
      rw [hok]
      dsimp only
      rw [hread]
      dsimp only
      rw [if_neg (by simp [hrc1, hrc2]), if_neg hrc3, error_response_eq _ _ _ _ h5]

/-- C5 witness: the spec's Read scenario on the battery value. -/
theorem read_and_read_blob_spec_witness :
    5 ≤ (23 : Nat) ∧
    handle_read_request dbW [0x0A, 0x03, 0x00] 23 = ([0x0B, 0x55], 2) := by
  have h := read_and_read_blob_spec dbW [0x0A, 0x03, 0x00] 23 (by decide)
  exact ⟨by decide,
    ((h.2.2.1 (by decide) (by decide) (by decide) AccessResult.success [0x55]
      (by decide)).1 (Or.inl rfl))⟩

/-- Successful range validation returns the two handles. -/
lemma check_size_and_handle_range_ok (db : Db) (A B : Nat) (input : List Nat)
    (os : Nat) (hAB : input.length = A ∨ input.length = B)
    (h0 : read_handle input 1 ≠ 0)
    (hse : read_handle input 1 ≤ read_handle input 3)
    (hN : read_handle input 1 ≤ number_of_attributes db) :
    check_size_and_handle_range db A B input os
      = .ok (read_handle input 1, read_handle input 3) := by
  unfold check_size_and_handle_range
  rw [if_neg (by rcases hAB with h | h <;> simp [h])]
  dsimp only
  rw [if_neg (by push_neg; omega), if_neg (by omega)]

/-- C9: For every Read By Group Type Request whose handle range passes
validation, a 21-octet PDU or a requested type other than the 16-bit Primary
Service UUID (0x2800) yields an `unsupported_group_type` Error Response; and
when no service declaration lies in the requested range the server replies
`attribute_not_found`. -/
theorem read_by_group_type_errors (db : Db) (input : List Nat) (os : Nat)
    (h5 : 5 ≤ os) :
    ((input.length = 7 ∨ input.length = 21) →
      read_handle input 1 ≠ 0 → read_handle input 1 ≤ read_handle input 3 →
      read_handle input 1 ≤ number_of_attributes db →
      (input.length = 21 ∨ read_handle input 5 ≠ primary_service_uuid) →
      handle_read_by_group_type_request db input os
        = ([op_error_response, input.headD 0] ++ write_handle (read_handle input 1)
            ++ [err_unsupported_group_type], 5)) ∧
    (input.length = 7 →
      read_handle input 1 ≠ 0 → read_handle input 1 ≤ read_handle input 3 →
      read_handle input 1 ≤ number_of_attributes db →
      read_handle input 5 = primary_service_uuid →
      no_service_in_range (read_handle input 1) (read_handle input 3) 1 db = true →
      handle_read_by_group_type_request db input os
        = ([op_error_response, input.headD 0] ++ write_handle (read_handle input 1)
            ++ [err_attribute_not_found], 5)) := by
  refine ⟨?_, ?_⟩
  · intro hAB h0 hse hN hbad
    unfold handle_read_by_group_type_request
    rw [check_size_and_handle_range_ok db 7 21 input os hAB h0 hse hN]
    dsimp only
    rw [if_pos hbad, error_response_eq _ _ _ _ h5]
  · intro hlen h0 hse hN htype hno
    unfold handle_read_by_group_type_request
    rw [check_size_and_handle_range_ok db 7 21 input os (Or.inl hlen) h0 hse hN]
    dsimp only
    rw [if_neg (by push_neg; exact ⟨by omega, htype⟩)]
    have hacc : (collect_primary_services (os - 2) (read_handle input 1)
        (read_handle input 3) db).acc = [] := by
      exact collect_primary_services_empty_aux (os - 2) (read_handle input 1)
        (read_handle input 3) db ⟨1, [], true, true, 0⟩ hno
    rw [if_pos hacc, error_response_eq _ _ _ _ h5]

/-- C9 witness: a validated range 2..3 on the battery service contains no
service declaration (the only one is at handle 1), so the reply is
`attribute_not_found`. -/
theorem read_by_group_type_errors_witness :
    5 ≤ (23 : Nat) ∧
    handle_read_by_group_type_request dbW [0x10, 0x02, 0x00, 0x03, 0x00, 0x00, 0x28] 23
      = ([op_error_response, 0x10] ++ write_handle 2 ++ [err_attribute_not_found], 5) := by
  have h := read_by_group_type_errors dbW [0x10, 0x02, 0x00, 0x03, 0x00, 0x00, 0x28]
    23 (by decide)
  exact ⟨by decide, h.2 (by decide) (by decide) (by decide) (by decide) (by decide)
    (by decide)⟩

/-- C10: For every Find By Type Value Request, a matching service's 4-octet
handle pair is appended only while at least 4 octets remain in the output
buffer (so the collected octets always fit and come in whole pairs); a matching
service met with a full buffer is silently omitted (the step only advances the
handle index); and as long as at least one pair was appended the server returns
a success response with opcode 0x07 rather than an error. -/
theorem find_by_type_value_buffer_packing (db : Db) (input : List Nat) (os : Nat)
    (h23 : 23 ≤ os) :
    ((collect_find_by_type_groups (os - 1) (input.drop 7) (read_handle input 1)
        (read_handle input 3) db).2.1.length ≤ os - 1 ∧
      (collect_find_by_type_groups (os - 1) (input.drop 7) (read_handle input 1)
        (read_handle input 3) db).2.1.length % 4 = 0) ∧
    (∀ idx acc found svc, os - 1 < acc.length + 4 →
      collect_find_by_type_groups_step (os - 1) (input.drop 7) (read_handle input 1)
          (read_handle input 3) (idx, acc, found) svc
        = (idx + svc.number_of_attributes, acc, found)) ∧
    ((input.length = 9 ∨ input.length = 23) →
      read_handle input 1 ≠ 0 → read_handle input 1 ≤ read_handle input 3 →
      read_handle input 1 ≤ number_of_attributes db →
      read_handle input 5 = primary_service_uuid →
      (collect_find_by_type_groups (os - 1) (input.drop 7) (read_handle input 1)
        (read_handle input 3) db).2.1 ≠ [] →
      handle_find_by_type_value_request db input os
        = ((op_find_by_type_value_response ::
              (collect_find_by_type_groups (os - 1) (input.drop 7) (read_handle input 1)
                (read_handle input 3) db).2.1).take
             (1 + (collect_find_by_type_groups (os - 1) (input.drop 7) (read_handle input 1)
                (read_handle input 3) db).2.1.length % 256),
           1 + (collect_find_by_type_groups (os - 1) (input.drop 7) (read_handle input 1)
                (read_handle input 3) db).2.1.length % 256) ∧
      (handle_find_by_type_value_request db input os).1.headD 0
        = op_find_by_type_value_response) := by
  have hinv := collect_find_by_type_groups_inv (os - 1) (input.drop 7)
    (read_handle input 1) (read_handle input 3) db
  obtain ⟨hlen, hmod, hfound⟩ := hinv
  refine ⟨⟨hlen, hmod⟩, ?_, ?_⟩
  · intro idx acc found svc hfull
    simp only [collect_find_by_type_groups_step]
    by_cases hm : read_handle input 1 ≤ idx ∧ idx ≤ read_handle input 3 ∧
        value_filter (input.drop 7) svc.characteristic_declaration_attribute = true
    · rw [if_pos hm, if_neg (by omega)]
    · rw [if_neg hm]
  · intro hAB h0 hse hN htype hne
    have hfnd := hfound hne
    have heq : handle_find_by_type_value_request db input os
        = ((op_find_by_type_value_response ::
              (collect_find_by_type_groups (os - 1) (input.drop 7) (read_handle input 1)
                (read_handle input 3) db).2.1).take
             (1 + (collect_find_by_type_groups (os - 1) (input.drop 7) (read_handle input 1)
                (read_handle input 3) db).2.1.length % 256),
           1 + (collect_find_by_type_groups (os - 1) (input.drop 7) (read_handle input 1)
                (read_handle input 3) db).2.1.length % 256) := by
      unfold handle_find_by_type_value_request
      rw [check_size_and_handle_range_ok db 9 23 input os hAB h0 hse hN]
      dsimp only
      rw [if_neg (not_not_intro htype), if_pos hfnd]
    refine ⟨heq, ?_⟩
    rw [heq]
    simp [List.take_cons]

/-- C10 witness: the spec's Find By Type Value scenario returns a success
response with opcode 0x07. -/
theorem find_by_type_value_buffer_packing_witness :
    23 ≤ (23 : Nat) ∧
    (handle_find_by_type_value_request dbW
        [0x06, 0x01, 0x00, 0xFF, 0xFF, 0x00, 0x28, 0x0F, 0x18] 23).1.headD 0
      = op_find_by_type_value_response := by
  have h := find_by_type_value_buffer_packing dbW
    [0x06, 0x01, 0x00, 0xFF, 0xFF, 0x00, 0x28, 0x0F, 0x18] 23 (by decide)
  exact ⟨by decide, (h.2.2 (Or.inl (by decide)) (by decide) (by decide) (by decide)
    (by decide) (by decide)).2⟩

/-- Error Response octets spelled out. -/
lemma error_response_eq5 (op c h os : Nat) (h5 : 5 ≤ os) :
    error_response op c h os
      = ([op_error_response, op, h % 256, h / 256 % 256, c], 5) := by
  simp [error_response, h5, write_handle, write_16bit]

/-- C3 counterexample: a Find By Type Value Request of length 10 — inside the
claimed accepted range 9..23 — is rejected with an `invalid_pdu` Error
Response, because the code accepts only the exact lengths 9 and 23. -/
theorem find_by_type_value_length_counterexample :
    (9 : Nat) ≤ 10 ∧ (10 : Nat) ≤ 23 ∧
    ([0x06, 0x01, 0x00, 0x05, 0x00, 0x00, 0x28, 0xAA, 0xBB, 0xCC] : List Nat).length
      = 10 ∧
    handle_find_by_type_value_request dbW
        [0x06, 0x01, 0x00, 0x05, 0x00, 0x00, 0x28, 0xAA, 0xBB, 0xCC] 23
      = ([op_error_response, op_find_by_type_value_request, 0x00, 0x00,
          err_invalid_pdu], 5) := by
  refine ⟨by decide, by decide, by decide, ?_⟩
  decide

/-- C3 (amended): the server accepts Find By Type Value Request PDUs only of
the exact lengths 9 and 23; every other length — including 10..22 — is rejected
with an `invalid_pdu` Error Response, and for lengths 9 and 23 the reply is
never an `invalid_pdu` Error Response. -/
theorem find_by_type_value_size_gate (db : Db) (input : List Nat) (os : Nat)
    (h5 : 5 ≤ os) :
    (input.length ≠ 9 → input.length ≠ 23 →
      handle_find_by_type_value_request db input os
        = ([op_error_response, input.headD 0, 0, 0, err_invalid_pdu], 5)) ∧
    ((input.length = 9 ∨ input.length = 23) →
      ¬((handle_find_by_type_value_request db input os).1.headD 0 = op_error_response ∧
        (handle_find_by_type_value_request db input os).1.getD 4 0 = err_invalid_pdu)) := by
  refine ⟨?_, ?_⟩
  · intro h9 h23
    unfold handle_find_by_type_value_request
    have herr : check_size_and_handle_range db 9 23 input os
        = .error ([op_error_response, input.headD 0, 0, 0, err_invalid_pdu], 5) := by
      unfold check_size_and_handle_range
      rw [if_pos ⟨h9, h23⟩, error_response_eq5 _ _ _ _ h5]
    rw [herr]
  · intro hAB
    by_cases hbad : read_handle input 1 = 0 ∨ read_handle input 3 < read_handle input 1
    · have herr : check_size_and_handle_range db 9 23 input os
          = .error ([op_error_response, input.headD 0, read_handle input 1 % 256,
              read_handle input 1 / 256 % 256, err_invalid_handle], 5) := by
        unfold check_size_and_handle_range
        rw [if_neg (by rcases hAB with h | h <;> simp [h])]
        dsimp only
        rw [if_pos hbad, error_response_eq5 _ _ _ _ h5]
      have hres : handle_find_by_type_value_request db input os
          = ([op_error_response, input.headD 0, read_handle input 1 % 256,
              read_handle input 1 / 256 % 256, err_invalid_handle], 5) := by
        unfold handle_find_by_type_value_request
        rw [herr]
      rintro ⟨-, hg⟩
      rw [hres] at hg
      simp [err_invalid_handle, err_invalid_pdu, List.getD] at hg
    · push_neg at hbad
      obtain ⟨h0, hse⟩ := hbad
      by_cases hN : number_of_attributes db < read_handle input 1
      · have herr : check_size_and_handle_range db 9 23 input os
            = .error ([op_error_response, input.headD 0, read_handle input 1 % 256,
                read_handle input 1 / 256 % 256, err_attribute_not_found], 5) := by
          unfold check_size_and_handle_range
          rw [if_neg (by rcases hAB with h | h <;> simp [h])]
          dsimp only
          rw [if_neg (by push_neg; omega), if_pos hN, error_response_eq5 _ _ _ _ h5]
        have hres : handle_find_by_type_value_request db input os
            = ([op_error_response, input.headD 0, read_handle input 1 % 256,
                read_handle input 1 / 256 % 256, err_attribute_not_found], 5) := by
          unfold handle_find_by_type_value_request
          rw [herr]
        rintro ⟨-, hg⟩
        rw [hres] at hg
        simp [err_attribute_not_found, err_invalid_pdu, List.getD] at hg
      · have hok := check_size_and_handle_range_ok db 9 23 input os hAB h0 hse
          (by omega)
        by_cases htype : read_handle input 5 ≠ primary_service_uuid
        · have hres : handle_find_by_type_value_request db input os
              = ([op_error_response, input.headD 0, read_handle input 1 % 256,
                  read_handle input 1 / 256 % 256, err_unsupported_group_type], 5) := by
            unfold handle_find_by_type_value_request
            rw [hok]
            dsimp only
            rw [if_pos htype, error_response_eq5 _ _ _ _ h5]
          rintro ⟨-, hg⟩
          rw [hres] at hg
          simp [err_unsupported_group_type, err_invalid_pdu, List.getD] at hg
        · by_cases hf : (collect_find_by_type_groups (os - 1) (input.drop 7)
              (read_handle input 1) (read_handle input 3) db).2.2 = true
          · have hres : handle_find_by_type_value_request db input os
                = ((op_find_by_type_value_response ::
                      (collect_find_by_type_groups (os - 1) (input.drop 7)
                        (read_handle input 1) (read_handle input 3) db).2.1).take
                    (1 + (collect_find_by_type_groups (os - 1) (input.drop 7)
                        (read_handle input 1) (read_handle input 3) db).2.1.length % 256),
                  1 + (collect_find_by_type_groups (os - 1) (input.drop 7)
                      (read_handle input 1) (read_handle input 3) db).2.1.length % 256) := by
              unfold handle_find_by_type_value_request
              rw [hok]
              dsimp only
              rw [if_neg htype, if_pos hf]
            rintro ⟨hh, -⟩
            rw [hres] at hh
            rw [Nat.add_comm 1 _] at hh
            simp [List.take_succ_cons, op_find_by_type_value_response,
              op_error_response] at hh
          · have hres : handle_find_by_type_value_request db input os
                = ([op_error_response, input.headD 0, read_handle input 1 % 256,
                    read_handle input 1 / 256 % 256, err_attribute_not_found], 5) := by
              unfold handle_find_by_type_value_request
              rw [hok]
              dsimp only
              rw [if_neg htype, if_neg hf, error_response_eq5 _ _ _ _ h5]
            rintro ⟨-, hg⟩
            rw [hres] at hg
            simp [err_attribute_not_found, err_invalid_pdu, List.getD] at hg

/-- C3 (amended) witness: length 9 is accepted — the reply to the spec's Find
By Type Value scenario is not an `invalid_pdu` Error Response. -/
theorem find_by_type_value_size_gate_witness :
    5 ≤ (23 : Nat) ∧
    ¬((handle_find_by_type_value_request dbW
          [0x06, 0x01, 0x00, 0xFF, 0xFF, 0x00, 0x28, 0x0F, 0x18] 23).1.headD 0
        = op_error_response ∧
      (handle_find_by_type_value_request dbW
          [0x06, 0x01, 0x00, 0xFF, 0xFF, 0x00, 0x28, 0x0F, 0x18] 23).1.getD 4 0
        = err_invalid_pdu) := by
  have h := find_by_type_value_size_gate dbW
    [0x06, 0x01, 0x00, 0xFF, 0xFF, 0x00, 0x28, 0x0F, 0x18] 23 (by decide)
  exact ⟨by decide, h.2 (Or.inl (by decide))⟩

/-- A database with two Battery-Level-typed attributes: the first holds a
30-octet value (whose read truncates in a 23-octet MTU), the second a 3-octet
value. -/
def dbC8 : Db :=
  [⟨[mkFixedAttr 0x2A19 (List.replicate 30 7), mkFixedAttr 0x2A19 [9, 9, 9]],
    [0x0F, 0x18]⟩]

/-- C8 counterexample: in `dbC8` the first matching attribute (handle 1,
matching the requested type 0x2A19) reads 19 octets with `read_truncated` in
the available space, so it is skipped; the length byte of the response is
determined by the second attribute as 5 — not `2 + 19` (its truncated size) nor
`2 + 30` (its full size), contradicting the claim that the first matching
attribute determines the length byte. -/
theorem read_by_type_first_match_counterexample :
    uuid_filter dbC8 [0x19, 0x2A] false 1 (attribute_at dbC8 0) = true ∧
    ((attribute_at dbC8 0).read 19 0).1 = AccessResult.read_truncated ∧
    ((attribute_at dbC8 0).read 19 0).2.length = 19 ∧
    handle_read_by_type_request dbC8 [0x08, 0x01, 0x00, 0x05, 0x00, 0x19, 0x2A] 23
      = ([0x09, 0x05, 0x02, 0x00, 0x09, 0x09, 0x09], 7) ∧
    (0x05 : Nat) ≠ 2 + 19 ∧ (0x05 : Nat) ≠ 2 + 30 := by
  refine ⟨by decide, by decide, by decide, by decide, by decide, by decide⟩

/-- C8 (amended): in every Read By Type response the collected octets decompose
into handle-value tuples whose value fields all have length `length byte - 2`
(the common size `size_`), the length byte fits one octet, the collection fits
the buffer; and it is the first attribute whose read is admissible — `success`,
or `read_truncated` with exactly 253 octets — that determines the length byte
as `2 + value size` and is always included (the tuple fits by construction).
An attribute whose read truncates below 253 octets is skipped and does not
determine the length. -/
theorem read_by_type_packing (cap : Nat) (l : List (Nat × Attribute))
    (hwf : ∀ p ∈ l, ReadWF p.2) :
    (∃ tuples : List (Nat × List Nat),
      (collect_attributes cap l).acc
        = (tuples.map fun p => write_handle p.1 ++ p.2).flatten ∧
      ∀ p ∈ tuples, p.2.length + 2 = (collect_attributes cap l).size_) ∧
    (collect_attributes cap l).size_ ≤ 255 ∧
    (collect_attributes cap l).acc.length ≤ cap ∧
    (∀ st h a rc bs, st.first_ = true → st.acc.length + 2 ≤ cap →
      a.read (min (cap - st.acc.length) 255 - 2) 0 = (rc, bs) → bs.length ≤ 253 →
      (rc = .success ∨ (rc = .read_truncated ∧ bs.length = 253)) →
      collect_attributes_step cap st (h, a)
        = ⟨st.acc ++ write_handle h ++ bs, bs.length + 2, false⟩) := by
  obtain ⟨hlen, hsz, _, tuples, hdec, htup⟩ := collect_attributes_inv cap l hwf
  refine ⟨⟨tuples, hdec, htup⟩, hsz, hlen, ?_⟩
  intro st h a rc bs hf hroom hread hle hadm
  simp only [collect_attributes_step]
  rw [if_pos hroom, hread]
  dsimp only
  rw [if_pos hadm, if_pos hf]
  have hmodeq : (bs.length + 2) % 256 = bs.length + 2 := Nat.mod_eq_of_lt (by omega)
  rw [hmodeq, if_pos rfl]

/-- C8 (amended) witness: instantiated on a one-element attribute list. -/
theorem read_by_type_packing_witness :
    (∀ p ∈ ([(2, mkFixedAttr 0x2A19 [9, 9, 9])] : List (Nat × Attribute)),
      ReadWF p.2) ∧
    (collect_attributes 21 [(2, mkFixedAttr 0x2A19 [9, 9, 9])]).acc.length ≤ 21 := by
  have hwf : ∀ p ∈ ([(2, mkFixedAttr 0x2A19 [9, 9, 9])] : List (Nat × Attribute)),
      ReadWF p.2 := by
    intro p hp
    simp only [List.mem_singleton] at hp
    subst hp
    exact mkFixedAttr_ReadWF _ _
  exact ⟨hwf, (read_by_type_packing 21 _ hwf).2.2.1⟩

/-- Supporting analysis for the Find Information handler: after successful
range validation an eligible attribute always exists — the starting attribute
itself lies in the range and its UUID kind defines the chosen format.  The
situation "no attribute in range matches the chosen format" therefore cannot
occur. -/
theorem find_information_eligible_attribute_exists (db : Db) (s e : Nat)
    (hs : 1 ≤ s) (hse : s ≤ e) (hN : s ≤ number_of_attributes db) :
    ∃ h, s ≤ h ∧ h ≤ e ∧ h ≤ number_of_attributes db ∧
      ((attribute_at db (h - 1)).uuid != internal_128bit_uuid)
        = ((attribute_at db (s - 1)).uuid != internal_128bit_uuid) :=
  ⟨s, le_refl s, hse, hN, rfl⟩

/-- Supporting analysis for the Find Information handler: after successful
range validation the handler always produces a Find Information Response
(opcode 0x05), never an Error Response — it has no `attribute_not_found` path. -/
theorem find_information_no_error_after_validation (db : Db) (input : List Nat)
    (os : Nat) (h23 : 23 ≤ os) (hlen : input.length = 5)
    (h0 : read_handle input 1 ≠ 0)
    (hse : read_handle input 1 ≤ read_handle input 3)
    (hN : read_handle input 1 ≤ number_of_attributes db) :
    (handle_find_information_request db input os).1.headD 0
      = op_find_information_response := by
  unfold handle_find_information_request
  rw [check_size_and_handle_range_ok db 5 5 input os (Or.inl hlen) h0 hse hN]
  dsimp only
  rw [if_pos (by omega : 2 ≤ os)]
  simp

end BluetoeServer

